import Mathlib

/-
Verification of the Lake Formation permissions reconciliation engine
(aws/resource_aws_lakeformation_permissions.go).

Shallow embedding conventions:
  * Go `*string` fields become `Option String`; a pointer to an empty struct
    (`*lakeformation.TableWildcard`, `*lakeformation.CatalogResource`) becomes
    `Option Unit`; `[]*string` becomes `Option (List String)` because
    `reflect.DeepEqual` distinguishes a nil slice from a non-nil one.
  * Terraform `d.Get` on a list-of-resource block yields a map that contains
    every schema key, with Go zero values ("" / false / empty list) for unset
    attributes; the config structures below store exactly those map values.
  * `reflect.DeepEqual` on the embedded structures is structural equality.
  * A remote call attempt is an `Except AWSError` value; `resource.Retry` is a
    bounded loop over a finite trace of attempt outcomes, timing out when the
    trace is exhausted while the error is still classified retryable.
-/

set_option maxHeartbeats 1000000

namespace LakeFormationPermissions

/-- An error returned by the remote AWS service: an error code plus a message.
This is the view of `awserr.Error` used by `isAWSErr` and
`tfawserr.ErrCodeEquals` (both only inspect code and message; `fmt.Errorf`
wrapping with `%w` preserves the code for `ErrCodeEquals`). -/
structure AWSError where
  code : String
  message : String
  deriving DecidableEq, Inhabited

/-- Does the second character list start with the first one? -/
def startsWithChars : List Char → List Char → Bool
  | [], _ => true
  | _ :: _, [] => false
  | a :: as, b :: bs => a == b && startsWithChars as bs

/-- Contiguous substring containment on character lists. -/
def containsChars (sub : List Char) : List Char → Bool
  | [] => sub.isEmpty
  | c :: rest => startsWithChars sub (c :: rest) || containsChars sub rest

/-- Go `strings.Contains hay sub`; the empty needle is contained everywhere. -/
def strContains (hay sub : String) : Bool := containsChars sub.data hay.data

/-- `isAWSErr(err, code, message)`: the error carries the given code and its
message contains the given substring. -/
def isAWSErr (e : AWSError) (code msg : String) : Bool :=
  e.code == code && strContains e.message msg

/-- `lakeformation.DataLocationResource` (fields used by the source). -/
structure DataLocationResource where
  CatalogId : Option String
  ResourceArn : Option String
  deriving DecidableEq, Inhabited

/-- `lakeformation.DatabaseResource`. -/
structure DatabaseResource where
  CatalogId : Option String
  Name : Option String
  deriving DecidableEq, Inhabited

/-- `lakeformation.TableResource`; `TableWildcard` is a pointer to an empty
struct, hence `Option Unit`. -/
structure TableResource where
  CatalogId : Option String
  DatabaseName : Option String
  Name : Option String
  TableWildcard : Option Unit
  deriving DecidableEq, Inhabited

/-- `lakeformation.ColumnWildcard`; `ExcludedColumnNames` is a `[]*string`,
where `reflect.DeepEqual` distinguishes nil (`none`) from a non-nil slice. -/
structure ColumnWildcard where
  ExcludedColumnNames : Option (List String)
  deriving DecidableEq, Inhabited

/-- `lakeformation.TableWithColumnsResource`. -/
structure TableWithColumnsResource where
  CatalogId : Option String
  ColumnNames : Option (List String)
  ColumnWildcard : Option LakeFormationPermissions.ColumnWildcard
  DatabaseName : Option String
  Name : Option String
  deriving DecidableEq, Inhabited

/-- `lakeformation.Resource`: five independently nilable variant pointers.
`Catalog` points to the empty `CatalogResource`, hence `Option Unit`. -/
structure Resource where
  Catalog : Option Unit
  DataLocation : Option DataLocationResource
  Database : Option DatabaseResource
  Table : Option TableResource
  TableWithColumns : Option TableWithColumnsResource
  deriving DecidableEq, Inhabited

/-- The all-nil `lakeformation.Resource{}`. -/
def emptyResource : Resource := ⟨none, none, none, none, none⟩

/-- First default-fill step of `resourceAwsLakeFormationPermissionsCompareResource`:
if both sides have a DataLocation and the first side's CatalogId is nil, copy
the second side's CatalogId into it. -/
def fillDataLocation (inp out : Resource) : Resource :=
  match inp.DataLocation, out.DataLocation with
  | some i, some o =>
    if i.CatalogId = none then
      { inp with DataLocation := some { i with CatalogId := o.CatalogId } }
    else inp
  | _, _ => inp

/-- Second default-fill step (Database catalog id). -/
def fillDatabase (inp out : Resource) : Resource :=
  match inp.Database, out.Database with
  | some i, some o =>
    if i.CatalogId = none then
      { inp with Database := some { i with CatalogId := o.CatalogId } }
    else inp
  | _, _ => inp

/-- Third default-fill step (Table catalog id). -/
def fillTable (inp out : Resource) : Resource :=
  match inp.Table, out.Table with
  | some i, some o =>
    if i.CatalogId = none then
      { inp with Table := some { i with CatalogId := o.CatalogId } }
    else inp
  | _, _ => inp

/-- Fourth default-fill step (TableWithColumns catalog id). -/
def fillTableWithColumns (inp out : Resource) : Resource :=
  match inp.TableWithColumns, out.TableWithColumns with
  | some i, some o =>
    if i.CatalogId = none then
      { inp with TableWithColumns := some { i with CatalogId := o.CatalogId } }
    else inp
  | _, _ => inp

/-- The four catalog-id default-fill assignments performed (in source order) by
`resourceAwsLakeFormationPermissionsCompareResource` on its first argument
before the `reflect.DeepEqual` comparison. -/
def fillCatalogIds (inp out : Resource) : Resource :=
  fillTableWithColumns (fillTable (fillDatabase (fillDataLocation inp out) out) out) out

/-- `resourceAwsLakeFormationPermissionsCompareResource(in, out)`: default-fill
the first argument's catalog ids from the second, then `reflect.DeepEqual`. -/
def compareResource (inp out : Resource) : Bool :=
  decide (fillCatalogIds inp out = out)

/-- The caller-visible value of the first argument after
`resourceAwsLakeFormationPermissionsCompareResource(in, out)` returns.
The Go function receives `in` by value, but the five variant fields are
pointers shared with the caller's `lakeformation.Resource`; each default-fill
assignment (`in.Database.CatalogId = out.Database.CatalogId`, etc.) writes
through such a shared pointer. The fills never change which variants are
non-nil, so the caller observes exactly `fillCatalogIds` of its original. -/
def callerAfterCompare (inp out : Resource) : Resource := fillCatalogIds inp out

/-- Terraform map contents of one `data_location` block ("" = attribute unset). -/
structure DataLocationConfig where
  arn : String
  catalog_id : String
  deriving DecidableEq, Inhabited

/-- Terraform map contents of one `database` block. -/
structure DatabaseConfig where
  catalog_id : String
  name : String
  deriving DecidableEq, Inhabited

/-- Terraform map contents of one `table` block. Every key is always present in
the map `d.Get` returns; unset strings are "" and unset bools are false. -/
structure TableConfig where
  catalog_id : String
  database_name : String
  name : String
  wildcard : Bool
  deriving DecidableEq, Inhabited

/-- Terraform map contents of one `table_with_columns` block. Note this map has
no `wildcard` key. -/
structure TableWithColumnsConfig where
  catalog_id : String
  column_names : List String
  database_name : String
  excluded_column_names : List String
  name : String
  deriving DecidableEq, Inhabited

/-- The fields of `schema.ResourceData` read by this resource. A list block of
max one element is `Option`: `d.GetOk` on it reports present iff non-empty,
and `d.Get(...)[0]` panics when absent. -/
structure ResourceData where
  catalog_id : String
  catalog_resource : Bool
  data_location : Option DataLocationConfig
  database : Option DatabaseConfig
  permissions : List String
  permissions_with_grant_option : List String
  principal : String
  table : Option TableConfig
  table_with_columns : Option TableWithColumnsConfig
  deriving DecidableEq, Inhabited

/-- `lakeformation.DataLakeResourceTypeCatalog`. -/
def DataLakeResourceTypeCatalog : String := "CATALOG"

/-- `lakeformation.DataLakeResourceTypeDataLocation`. -/
def DataLakeResourceTypeDataLocation : String := "DATA_LOCATION"

/-- `lakeformation.DataLakeResourceTypeDatabase`. -/
def DataLakeResourceTypeDatabase : String := "DATABASE"

/-- `lakeformation.DataLakeResourceTypeTable`. -/
def DataLakeResourceTypeTable : String := "TABLE"

/-- Source constant `DataLakeResourceTypeTableWithColumns` (no SDK enum value). -/
def DataLakeResourceTypeTableWithColumns : String := "TABLE_WITH_COLUMNS"

/-- `expandLakeFormationResourceType`: fixed precedence chain with the
table-with-columns type as fallback. -/
def expandLakeFormationResourceType (d : ResourceData) : String :=
  if d.catalog_resource then DataLakeResourceTypeCatalog
  else if d.data_location.isSome then DataLakeResourceTypeDataLocation
  else if d.database.isSome then DataLakeResourceTypeDatabase
  else if d.table.isSome then DataLakeResourceTypeTable
  else DataLakeResourceTypeTableWithColumns

/-- Go `v != ""` guard used by every expand helper: set the pointer only for a
non-empty map value. -/
def strOpt (s : String) : Option String := if s = "" then none else some s

/-- `expandLakeFormationDataLocationResource` on one block's map. -/
def expandLakeFormationDataLocationResource (c : DataLocationConfig) : DataLocationResource :=
  { CatalogId := strOpt c.catalog_id
    ResourceArn := strOpt c.arn }

/-- `expandLakeFormationDatabaseResource` on one block's map. -/
def expandLakeFormationDatabaseResource (c : DatabaseConfig) : DatabaseResource :=
  { CatalogId := strOpt c.catalog_id
    Name := strOpt c.name }

/-- `expandLakeFormationTableResource` applied to a `table` block's map. -/
def expandLakeFormationTableResource (c : TableConfig) : TableResource :=
  { CatalogId := strOpt c.catalog_id
    DatabaseName := strOpt c.database_name
    Name := strOpt c.name
    TableWildcard := if c.wildcard then some () else none }

/-- `expandLakeFormationTableResource` applied to a `table_with_columns`
block's map (the squash case): that map has no `wildcard` key, so the
`tfMap["wildcard"].(bool)` assertion fails and `TableWildcard` is never set. -/
def expandLakeFormationTableResourceFromTWC (c : TableWithColumnsConfig) : TableResource :=
  { CatalogId := strOpt c.catalog_id
    DatabaseName := strOpt c.database_name
    Name := strOpt c.name
    TableWildcard := none }

/-- `expandLakeFormationTableWithColumnsResource` on one block's map. -/
def expandLakeFormationTableWithColumnsResource (c : TableWithColumnsConfig) : TableWithColumnsResource :=
  { CatalogId := strOpt c.catalog_id
    ColumnNames := if c.column_names.isEmpty then none else some c.column_names
    ColumnWildcard :=
      if c.excluded_column_names.isEmpty then none
      else some ⟨some c.excluded_column_names⟩
    DatabaseName := strOpt c.database_name
    Name := strOpt c.name }

/-- `expandLakeFormationResource(d, squashTableWithColumns)`. Returns `none`
exactly where the Go code panics: indexing `[0]` of an absent block for the
classified variant (reachable only in the table-with-columns fallback when no
`table_with_columns` block exists). -/
def expandLakeFormationResource (d : ResourceData) (squashTableWithColumns : Bool) : Option Resource :=
  if expandLakeFormationResourceType d = DataLakeResourceTypeCatalog then
    some { emptyResource with Catalog := some () }
  else if expandLakeFormationResourceType d = DataLakeResourceTypeDataLocation then
    match d.data_location with
    | some c => some { emptyResource with DataLocation := some (expandLakeFormationDataLocationResource c) }
    | none => none
  else if expandLakeFormationResourceType d = DataLakeResourceTypeDatabase then
    match d.database with
    | some c => some { emptyResource with Database := some (expandLakeFormationDatabaseResource c) }
    | none => none
  else if expandLakeFormationResourceType d = DataLakeResourceTypeTable then
    match d.table with
    | some c => some { emptyResource with Table := some (expandLakeFormationTableResource c) }
    | none => none
  else
    match d.table_with_columns with
    | some c =>
      if squashTableWithColumns then
        some { emptyResource with Table := some (expandLakeFormationTableResourceFromTWC c) }
      else
        some { emptyResource with TableWithColumns := some (expandLakeFormationTableWithColumnsResource c) }
    | none => none

/-- `expandLakeFormationResourceForSelectPermissions(d)`: when a `table` block
exists, synthesize the column-wildcard TableWithColumns locator the service
uses for SELECT grants. The `database_name` and `name` keys are always present
(as strings, "" when unset) in the block's map, so both type assertions
succeed whenever the block exists. -/
def expandLakeFormationResourceForSelectPermissions (d : ResourceData) : Option Resource :=
  match d.table with
  | none => none
  | some t =>
    some { emptyResource with
      TableWithColumns := some
        { CatalogId := none
          ColumnNames := none
          ColumnWildcard := some ⟨none⟩
          DatabaseName := some t.database_name
          Name := some t.name } }

/-- Retryable conditions of the Create retry closure (lines 208-222). -/
def createRetryable (e : AWSError) : Bool :=
  isAWSErr e "InvalidInputException" "Invalid principal" ||
  isAWSErr e "InvalidInputException" "Grantee has no permissions" ||
  isAWSErr e "InvalidInputException" "register the S3 path" ||
  isAWSErr e "ConcurrentModificationException" "" ||
  isAWSErr e "AccessDeniedException" "is not authorized to access requested permissions"

/-- Retryable condition of the Read retry closure (lines 288-290). -/
def readRetryable (e : AWSError) : Bool :=
  isAWSErr e "InvalidInputException" "Invalid principal"

/-- Retryable conditions of the Delete retry closure (lines 391-396). -/
def deleteRetryable (e : AWSError) : Bool :=
  isAWSErr e "InvalidInputException" "register the S3 path" ||
  isAWSErr e "ConcurrentModificationException" ""

/-- Result of a `resource.Retry` loop: terminal success, a non-retryable error
(as wrapped and returned by the closure), or a `*resource.TimeoutError`
carrying the last retryable error when the budget ran out. -/
inductive RetryResult (α : Type) where
  | success (a : α)
  | terminal (e : AWSError)
  | timedOut (e : AWSError)
  deriving DecidableEq

/-- `resource.Retry` over a finite trace of attempt outcomes. The trace length
plays the role of the time budget: a retryable error with no attempts left is
a timeout (`isResourceTimeoutError` then holds of the returned error). -/
def runRetry {α : Type} (retryable : AWSError → Bool) : List (Except AWSError α) → RetryResult α
  | [] => .timedOut default
  | .ok a :: _ => .success a
  | .error e :: rest =>
    if retryable e then
      if rest.isEmpty then .timedOut e else runRetry retryable rest
    else .terminal e

/-- Outcome of `resourceAwsLakeFormationPermissionsCreate` up to the point
where it sets the resource id and delegates to Read: either it proceeds there,
or it fails with "empty response" (nil output, line 237-239), or it surfaces a
grant error (line 233-235). -/
inductive CreateOutcome where
  | proceedToRead
  | emptyResponse
  | failed (e : AWSError)
  deriving DecidableEq

/-- The grant phase of Create: retry loop over `conn.GrantPermissions`
attempts (`Except.ok b` = success with `b` = output non-nil), then on
`isResourceTimeoutError` exactly one more unretried attempt (line 229-231),
then the error / nil-output checks. -/
def createResult (trace : List (Except AWSError Bool)) (extra : Except AWSError Bool) : CreateOutcome :=
  let final : Except AWSError Bool :=
    match runRetry createRetryable trace with
    | .success b => .ok b
    | .terminal e => .error e
    | .timedOut _ => extra
  match final with
  | .error e => .failed e
  | .ok b => if b then .proceedToRead else .emptyResponse

/-- What Create returns as a function of the single post-timeout attempt alone:
its error is surfaced without consulting the retry classifier, its success
proceeds (or hits the nil-output check). -/
def createFinal : Except AWSError Bool → CreateOutcome
  | .error e => .failed e
  | .ok b => if b then .proceedToRead else .emptyResponse

/-- `resourceAwsLakeFormationPermissionsDelete` outcome: `none` = success,
`some e` = the surfaced error cause (wrapped at line 407-409). -/
def deleteResult (trace : List (Except AWSError Unit)) (extra : Except AWSError Unit) : Option AWSError :=
  let final : Except AWSError Unit :=
    match runRetry deleteRetryable trace with
    | .success _ => .ok ()
    | .terminal e => .error e
    | .timedOut _ => extra
  match final with
  | .error e => some e
  | .ok _ => none

/-- What Delete returns as a function of the single post-timeout attempt alone. -/
def deleteFinal : Except AWSError Unit → Option AWSError
  | .error e => some e
  | .ok _ => none

/-- One record of `ListPermissionsOutput.PrincipalResourcePermissions`.
`Principal` models the dereferenced `DataLakePrincipal.DataLakePrincipalIdentifier`
pointer. Permission lists hold the dereferenced string values. -/
structure PrincipalResourcePermissions where
  Principal : Option String
  Resource : LakeFormationPermissions.Resource
  Permissions : List String
  PermissionsWithGrantOption : List String
  deriving DecidableEq, Inhabited

/-- `flattenLakeFormationPermissions`: concatenate every matched entry's
permission list in order, with no deduplication. -/
def flattenLakeFormationPermissions : List PrincipalResourcePermissions → List String
  | [] => []
  | p :: rest => p.Permissions ++ flattenLakeFormationPermissions rest

/-- `flattenLakeFormationGrantPermissions`: same, for grant-option lists. -/
def flattenLakeFormationGrantPermissions : List PrincipalResourcePermissions → List String
  | [] => []
  | p :: rest => p.PermissionsWithGrantOption ++ flattenLakeFormationGrantPermissions rest

/-- `flattenLakeFormationDataLocationResource`: the map it builds (a key is
present iff the source pointer is non-nil). -/
structure FlatDataLocation where
  catalog_id : Option String
  arn : Option String
  deriving DecidableEq, Inhabited

/-- Build the `data_location` state map from a remote DataLocation resource. -/
def flattenDataLocation (a : DataLocationResource) : FlatDataLocation :=
  { catalog_id := a.CatalogId, arn := a.ResourceArn }

/-- `flattenLakeFormationDatabaseResource` output map. -/
structure FlatDatabase where
  catalog_id : Option String
  name : Option String
  deriving DecidableEq, Inhabited

/-- Build the `database` state map from a remote Database resource. -/
def flattenDatabase (a : DatabaseResource) : FlatDatabase :=
  { catalog_id := a.CatalogId, name := a.Name }

/-- `flattenLakeFormationTableResource` output map; the `wildcard` key is set
(to true) iff `TableWildcard` is non-nil. -/
structure FlatTable where
  catalog_id : Option String
  database_name : Option String
  name : Option String
  wildcard : Option Bool
  deriving DecidableEq, Inhabited

/-- Build the `table` state map from a remote Table resource. -/
def flattenTable (a : TableResource) : FlatTable :=
  { catalog_id := a.CatalogId
    database_name := a.DatabaseName
    name := a.Name
    wildcard := a.TableWildcard.map (fun _ => true) }

/-- `flattenLakeFormationTableWithColumnsResource` output map; `column_names`
is always set (flattenStringList of a nil slice is the empty list) while
`excluded_column_names` is set iff `ColumnWildcard` is non-nil. -/
structure FlatTableWithColumns where
  catalog_id : Option String
  column_names : List String
  database_name : Option String
  excluded_column_names : Option (List String)
  name : Option String
  deriving DecidableEq, Inhabited

/-- Build the `table_with_columns` state map from a remote resource. -/
def flattenTableWithColumns (a : TableWithColumnsResource) : FlatTableWithColumns :=
  { catalog_id := a.CatalogId
    column_names := a.ColumnNames.getD []
    database_name := a.DatabaseName
    excluded_column_names := a.ColumnWildcard.map (fun w => w.ExcludedColumnNames.getD [])
    name := a.Name }

/-- The `d.Set` calls a successful Read performs (lines 335-363). An outer
`none` on `catalogResource`, `tableSet` or `tableWithColumnsSet` means that
key was not touched on this path; an inner `none` means it was explicitly set
to nil. `data_location` and `database` are always set (to a value or nil). -/
structure ReadState where
  principal : Option String
  permissions : List String
  permissionsWithGrantOption : List String
  catalogResource : Option Bool
  dataLocation : Option FlatDataLocation
  database : Option FlatDatabase
  tableWithColumnsSet : Option (Option FlatTableWithColumns)
  tableSet : Option (Option FlatTable)
  deriving DecidableEq, Inhabited

/-- The state written by a successful Read: principal and resource fields come
from the first matched entry only; permission lists are concatenated over all
matched entries. -/
def buildState (first : PrincipalResourcePermissions)
    (all : List PrincipalResourcePermissions) : ReadState :=
  { principal := first.Principal
    permissions := flattenLakeFormationPermissions all
    permissionsWithGrantOption := flattenLakeFormationGrantPermissions all
    catalogResource := if first.Resource.Catalog.isSome then some true else none
    dataLocation := first.Resource.DataLocation.map flattenDataLocation
    database := first.Resource.Database.map flattenDatabase
    tableWithColumnsSet :=
      match first.Resource.TableWithColumns, first.Resource.Table with
      | some twc, _ => some (some (flattenTableWithColumns twc))
      | none, some _ => some none
      | none, none => none
    tableSet :=
      match first.Resource.TableWithColumns, first.Resource.Table with
      | some _, _ => none
      | none, some t => some (some (flattenTable t))
      | none, none => some none }

/-- Outcome of `resourceAwsLakeFormationPermissionsRead`.
`removedFromState` is the soft NotFound path (`d.SetId("")`, nil error,
lines 317-321); `noPermissionsFound` and `multiplePermissionsFound` are the
two consistency errors (lines 327-333); `listError` surfaces a List failure
(line 323-325). -/
inductive ReadOutcome where
  | ok (st : ReadState)
  | removedFromState
  | listError (e : AWSError)
  | noPermissionsFound
  | multiplePermissionsFound
  deriving DecidableEq

/-- The tail of Read after the List phase: the EntityNotFound soft path (gated
on `!d.IsNewResource()`), error surfacing, the zero/more-than-two consistency
checks, then state building. -/
def readAfterList (isNewResource : Bool) (err : Option AWSError)
    (acc : List PrincipalResourcePermissions) : ReadOutcome :=
  match err with
  | some e =>
    if !isNewResource && e.code == "EntityNotFoundException" then .removedFromState
    else .listError e
  | none =>
    match acc with
    | [] => .noPermissionsFound
    | p :: rest =>
      if (p :: rest).length > 2 then .multiplePermissionsFound
      else .ok (buildState p (p :: rest))

/-- One `conn.ListPermissionsPages` attempt: the entries delivered to the page
callback before the attempt finished, and its result (`none` = completed). -/
structure ListAttempt where
  pages : List (Option PrincipalResourcePermissions)
  result : Option AWSError
  deriving DecidableEq, Inhabited

/-- The page-callback filter (lines 269-283): skip nil entries; compare the
declared locator (mutating it via the shared-pointer catalog-id fills) and on
failure the select auxiliary locator (also mutated); append matches in order.
Returns the matched entries plus the evolved declared and auxiliary locators. -/
def processEntries :
    Resource → Option Resource → List PrincipalResourcePermissions →
    List (Option PrincipalResourcePermissions) →
    List PrincipalResourcePermissions × Resource × Option Resource
  | m, s, acc, [] => (acc, m, s)
  | m, s, acc, none :: rest => processEntries m s acc rest
  | m, s, acc, some p :: rest =>
    let m' := fillCatalogIds m p.Resource
    if compareResource m p.Resource then
      processEntries m' s (acc ++ [p]) rest
    else
      match s with
      | none => processEntries m' none acc rest
      | some sr =>
        let s' := fillCatalogIds sr p.Resource
        if compareResource sr p.Resource then processEntries m' (some s') (acc ++ [p]) rest
        else processEntries m' (some s') acc rest

/-- The Read retry loop over List attempts. The matched accumulator and both
locators are captured by the closure, so they persist across attempts. -/
def readListLoop :
    Resource → Option Resource → List PrincipalResourcePermissions →
    List ListAttempt →
    List PrincipalResourcePermissions × Resource × Option Resource × RetryResult Unit
  | m, s, acc, [] => (acc, m, s, .timedOut default)
  | m, s, acc, a :: rest =>
    match processEntries m s acc a.pages with
    | (acc', m', s') =>
      match a.result with
      | none => (acc', m', s', .success ())
      | some e =>
        if readRetryable e then
          if rest.isEmpty then (acc', m', s', .timedOut e) else readListLoop m' s' acc' rest
        else (acc', m', s', .terminal e)

/-- What Read computes after a retry timeout: the single extra
`ListPermissionsPages` call (lines 296-315) appends into the same accumulator
and its result replaces `err`, with no retry classification applied. -/
def readFinalAfterTimeout (isNewResource : Bool) (m : Resource) (s : Option Resource)
    (acc : List PrincipalResourcePermissions) (extra : ListAttempt) : ReadOutcome :=
  readAfterList isNewResource extra.result (processEntries m s acc extra.pages).1

/-- `resourceAwsLakeFormationPermissionsRead` over a trace of List attempts
(`extra` is the one post-timeout attempt, consulted only on timeout). `none`
models the Go panic of expanding an absent block for the classified variant. -/
def readResult (d : ResourceData) (isNewResource : Bool)
    (trace : List ListAttempt) (extra : ListAttempt) : Option ReadOutcome :=
  match expandLakeFormationResource d false with
  | none => none
  | some matchRes =>
    let selectRes := expandLakeFormationResourceForSelectPermissions d
    match readListLoop matchRes selectRes [] trace with
    | (acc, m, s, r) =>
      some (match r with
        | .success _ => readAfterList isNewResource none acc
        | .terminal e => readAfterList isNewResource (some e) acc
        | .timedOut _ => readAfterList isNewResource extra.result (processEntries m s acc extra.pages).1)

theorem fillDataLocation_self (a : Resource) : fillDataLocation a a = a := by
  rcases a with ⟨c, dl, db, t, tw⟩
  rcases dl with _ | ⟨cid, arn⟩
  · rfl
  · cases cid <;> rfl

theorem fillDatabase_self (a : Resource) : fillDatabase a a = a := by
  rcases a with ⟨c, dl, db, t, tw⟩
  rcases db with _ | ⟨cid, n⟩
  · rfl
  · cases cid <;> rfl

theorem fillTable_self (a : Resource) : fillTable a a = a := by
  rcases a with ⟨c, dl, db, t, tw⟩
  rcases t with _ | ⟨cid, dn, n, w⟩
  · rfl
  · cases cid <;> rfl

theorem fillTableWithColumns_self (a : Resource) : fillTableWithColumns a a = a := by
  rcases a with ⟨c, dl, db, t, tw⟩
  rcases tw with _ | ⟨cid, cn, cw, dn, n⟩
  · rfl
  · cases cid <;> rfl

theorem fillCatalogIds_self (a : Resource) : fillCatalogIds a a = a := by
  unfold fillCatalogIds
  rw [fillDataLocation_self, fillDatabase_self, fillTable_self, fillTableWithColumns_self]

/-- C1: the locator comparison is reflexive, and a declared locator whose
catalog id is unset compares equal to a remote locator that agrees on all
other fields and carries any catalog id (the default-fill direction: unset on
the first argument, set on the second), for each of the four variants that
carry a catalog id. -/
theorem c1_compare_reflexive_and_default_fill :
    (∀ a : Resource, compareResource a a = true) ∧
    (∀ (x : DataLocationResource) (cid : Option String), x.CatalogId = none →
      compareResource ⟨none, some x, none, none, none⟩
        ⟨none, some { x with CatalogId := cid }, none, none, none⟩ = true) ∧
    (∀ (x : DatabaseResource) (cid : Option String), x.CatalogId = none →
      compareResource ⟨none, none, some x, none, none⟩
        ⟨none, none, some { x with CatalogId := cid }, none, none⟩ = true) ∧
    (∀ (x : TableResource) (cid : Option String), x.CatalogId = none →
      compareResource ⟨none, none, none, some x, none⟩
        ⟨none, none, none, some { x with CatalogId := cid }, none⟩ = true) ∧
    (∀ (x : TableWithColumnsResource) (cid : Option String), x.CatalogId = none →
      compareResource ⟨none, none, none, none, some x⟩
        ⟨none, none, none, none, some { x with CatalogId := cid }⟩ = true) := by
  refine ⟨?_, ?_, ?_, ?_, ?_⟩
  · intro a
    unfold compareResource
    rw [fillCatalogIds_self]
    exact decide_eq_true rfl
  · rintro ⟨xc, xa⟩ cid h
    simp only at h
    subst h
    unfold compareResource
    exact decide_eq_true rfl
  · rintro ⟨xc, xn⟩ cid h
    simp only at h
    subst h
    unfold compareResource
    exact decide_eq_true rfl
  · rintro ⟨xc, xd, xn, xw⟩ cid h
    simp only at h
    subst h
    unfold compareResource
    exact decide_eq_true rfl
  · rintro ⟨xc, xcn, xcw, xd, xn⟩ cid h
    simp only at h
    subst h
    unfold compareResource
    exact decide_eq_true rfl

/-- Witness for C1 at concrete locators: reflexivity at a database locator and
the default-fill direction with catalog id 111122223333. -/
theorem c1_witness :
    compareResource ⟨none, none, some ⟨none, some "db1"⟩, none, none⟩
      ⟨none, none, some ⟨none, some "db1"⟩, none, none⟩ = true ∧
    compareResource ⟨none, none, some ⟨none, some "db1"⟩, none, none⟩
      ⟨none, none, some ⟨some "111122223333", some "db1"⟩, none, none⟩ = true :=
  ⟨c1_compare_reflexive_and_default_fill.1 ⟨none, none, some ⟨none, some "db1"⟩, none, none⟩,
   c1_compare_reflexive_and_default_fill.2.2.1 ⟨none, some "db1"⟩ (some "111122223333") rfl⟩

/-- Counterexample for C1 as stated: the comparison is not symmetric. With the
catalog id set on the first argument and unset on the second, no default-fill
happens and the two locators compare unequal, while the mirrored comparison
succeeds. -/
theorem c1_counterexample :
    compareResource ⟨none, none, some ⟨none, some "db1"⟩, none, none⟩
      ⟨none, none, some ⟨some "111122223333", some "db1"⟩, none, none⟩ = true ∧
    compareResource ⟨none, none, some ⟨some "111122223333", some "db1"⟩, none, none⟩
      ⟨none, none, some ⟨none, some "db1"⟩, none, none⟩ = false := by
  decide

/-- Declared database locator with unset catalog id, for the C2 analysis. -/
def c2Declared : Resource := ⟨none, none, some ⟨none, some "db1"⟩, none, none⟩

/-- Remote database locator with the server-filled catalog id, for C2. -/
def c2Remote : Resource := ⟨none, none, some ⟨some "111122223333", some "db1"⟩, none, none⟩

/-- Declared table locator db1.t1 with unset catalog id, for C2. -/
def c2DeclaredTable : Resource :=
  ⟨none, none, none, some ⟨none, some "db1", some "t1", none⟩, none⟩

/-- Remote non-matching table entry (same database, different table name) from
catalog 111111111111, for C2. -/
def c2OtherTableEntry : PrincipalResourcePermissions :=
  ⟨some "role/X", ⟨none, none, none, some ⟨some "111111111111", some "db1", some "other", none⟩, none⟩,
    ["SELECT"], []⟩

/-- Remote matching table entry (db1.t1) from catalog 222222222222, for C2. -/
def c2MatchingTableEntry : PrincipalResourcePermissions :=
  ⟨some "role/X", ⟨none, none, none, some ⟨some "222222222222", some "db1", some "t1", none⟩, none⟩,
    ["SELECT"], []⟩

/-- C2: evaluating the comparison at a declared locator with unset catalog id
against a remote locator with the catalog id set shows that the caller's
locator does NOT stay unchanged: the default-fill writes the remote catalog id
through the `Database` pointer shared with the caller, so after the call the
caller's locator equals the remote one rather than its original value (while
the comparison itself returns true). The final two conjuncts evaluate the
Read filter loop at the failing input and show the functional consequence:
after comparing against a non-matching entry from catalog 111111111111, the
mutated declared locator no longer matches a genuinely matching entry from
catalog 222222222222, although a fresh comparison of the original declared
locator against that entry succeeds. -/
theorem c2_caller_locator_mutated :
    callerAfterCompare c2Declared c2Remote = c2Remote ∧
    callerAfterCompare c2Declared c2Remote ≠ c2Declared ∧
    compareResource c2Declared c2Remote = true ∧
    (processEntries c2DeclaredTable none [] [some c2OtherTableEntry, some c2MatchingTableEntry]).1
      = [] ∧
    compareResource c2DeclaredTable c2MatchingTableEntry.Resource = true := by
  decide

/-- A request carrying only a `table` block `{database_name: db1, name: t1}`. -/
def tableRequest : ResourceData :=
  { catalog_id := ""
    catalog_resource := false
    data_location := none
    database := none
    permissions := ["SELECT"]
    permissions_with_grant_option := []
    principal := "role/X"
    table := some ⟨"", "db1", "t1", false⟩
    table_with_columns := none }

/-- A request carrying only `catalog_resource = true`. -/
def catalogRequest : ResourceData :=
  { catalog_id := ""
    catalog_resource := true
    data_location := none
    database := none
    permissions := ["ALL"]
    permissions_with_grant_option := []
    principal := "role/X"
    table := none
    table_with_columns := none }

/-- C3 (amended): the select-permissions resolver produces no auxiliary
locator exactly when the request has no `table` block at all; whenever a
`table` block is present it produces the TableWithColumns locator with an
empty column wildcard — in particular, for `{database_name: db1, name: t1}` it
produces `TableWithColumns{database_name: db1, name: t1, column_wildcard
empty}`. -/
theorem c3_select_resolver :
    (∀ d : ResourceData,
      expandLakeFormationResourceForSelectPermissions d = none ↔ d.table = none) ∧
    expandLakeFormationResourceForSelectPermissions tableRequest =
      some ⟨none, none, none, none, some ⟨none, none, some ⟨none⟩, some "db1", some "t1"⟩⟩ := by
  constructor
  · intro d
    cases h : d.table <;> simp [expandLakeFormationResourceForSelectPermissions, h]
  · rfl

/-- Witness for C3 at a concrete request with no table block. -/
theorem c3_witness :
    expandLakeFormationResourceForSelectPermissions catalogRequest = none :=
  (c3_select_resolver.1 catalogRequest).mpr rfl

/-- A request whose `table` block is `{database_name: db1, wildcard: true}`
with no `name`; in the Terraform map the `name` key is present with value "". -/
def wildcardTableRequest : ResourceData :=
  { catalog_id := ""
    catalog_resource := false
    data_location := none
    database := none
    permissions := ["SELECT"]
    permissions_with_grant_option := []
    principal := "role/X"
    table := some ⟨"", "db1", "", true⟩
    table_with_columns := none }

/-- Counterexample for C3 as stated: for a Table locator with `wildcard: true`
and no `name`, an auxiliary locator IS produced (carrying `Name` = some ""),
because both `database_name` and `name` type assertions succeed on the
zero-filled Terraform block map. -/
theorem c3_counterexample :
    wildcardTableRequest.table = some ⟨"", "db1", "", true⟩ ∧
    expandLakeFormationResourceForSelectPermissions wildcardTableRequest ≠ none ∧
    expandLakeFormationResourceForSelectPermissions wildcardTableRequest =
      some ⟨none, none, none, none, some ⟨none, none, some ⟨none⟩, some "db1", some ""⟩⟩ := by
  decide

/-- C4 (amended): Delete succeeds exactly when the deciding Revoke attempt
succeeds — either the retry loop ends in success, or it times out and the one
extra unretried attempt succeeds. Every error outcome, including the remote
reporting the grant as non-existent, is surfaced. -/
theorem c4_delete_ok_iff_revoke_ok :
    ∀ (trace : List (Except AWSError Unit)) (extra : Except AWSError Unit),
      deleteResult trace extra = none ↔
        (runRetry deleteRetryable trace = .success () ∨
          (∃ e, runRetry deleteRetryable trace = .timedOut e ∧ extra = .ok ())) := by
  intro trace extra
  unfold deleteResult
  cases h : runRetry deleteRetryable trace with
  | success a => cases a; simp [h]
  | terminal e => simp [h]
  | timedOut e =>
    cases extra with
    | ok u => cases u; simp [h]
    | error e2 => simp [h]

/-- Witness for C4 at a concrete trace whose single Revoke attempt succeeds. -/
theorem c4_witness : deleteResult [Except.ok ()] (Except.ok ()) = none :=
  (c4_delete_ok_iff_revoke_ok [Except.ok ()] (Except.ok ())).mpr (Or.inl rfl)

/-- Counterexample for C4 as stated: when Revoke reports the grant as already
absent (EntityNotFoundException), Delete surfaces the error instead of
returning success — there is no idempotent-delete handling in the code. -/
theorem c4_counterexample :
    deleteResult [Except.error ⟨"EntityNotFoundException", "Grant not found"⟩] (Except.ok ()) =
      some ⟨"EntityNotFoundException", "Grant not found"⟩ ∧
    deleteResult [Except.error ⟨"EntityNotFoundException", "Grant not found"⟩] (Except.ok ()) ≠
      none := by
  decide

theorem readAfterList_none_nil (isNew : Bool) :
    readAfterList isNew none [] = .noPermissionsFound := rfl

theorem readAfterList_none_cons (isNew : Bool) (p : PrincipalResourcePermissions)
    (rest : List PrincipalResourcePermissions) :
    readAfterList isNew none (p :: rest) =
      if (p :: rest).length > 2 then .multiplePermissionsFound
      else .ok (buildState p (p :: rest)) := rfl

theorem readResult_single_attempt_ok (d : ResourceData) (m : Resource) (isNew : Bool)
    (entries : List (Option PrincipalResourcePermissions)) (extra : ListAttempt)
    (hm : expandLakeFormationResource d false = some m) :
    readResult d isNew [⟨entries, none⟩] extra =
      some (readAfterList isNew none
        (processEntries m (expandLakeFormationResourceForSelectPermissions d) [] entries).1) := by
  unfold readResult
  rw [hm]
  rfl

theorem readResult_single_attempt_terminal (d : ResourceData) (m : Resource) (isNew : Bool)
    (entries : List (Option PrincipalResourcePermissions)) (e : AWSError) (extra : ListAttempt)
    (hm : expandLakeFormationResource d false = some m)
    (hr : readRetryable e = false) :
    readResult d isNew [⟨entries, some e⟩] extra =
      some (readAfterList isNew (some e)
        (processEntries m (expandLakeFormationResourceForSelectPermissions d) [] entries).1) := by
  unfold readResult
  rw [hm]
  simp only [readListLoop]
  rw [hr]
  rfl

/-- C5: for a Read whose (single) List call succeeds, the outcome is decided
by the number of matched entries: zero yields the "no permissions found"
consistency error, more than two yields the "multiple permissions found"
consistency error, the soft NotFound outcome never occurs, and Read succeeds
exactly when one or two entries matched. -/
theorem c5_read_match_count :
    ∀ (d : ResourceData) (m : Resource) (isNew : Bool)
      (entries : List (Option PrincipalResourcePermissions)) (extra : ListAttempt)
      (matched : List PrincipalResourcePermissions),
      expandLakeFormationResource d false = some m →
      matched = (processEntries m (expandLakeFormationResourceForSelectPermissions d) [] entries).1 →
      readResult d isNew [⟨entries, none⟩] extra = some (readAfterList isNew none matched) ∧
      (matched.length = 0 → readAfterList isNew none matched = .noPermissionsFound) ∧
      (matched.length > 2 → readAfterList isNew none matched = .multiplePermissionsFound) ∧
      ((∃ st, readAfterList isNew none matched = .ok st) ↔
        1 ≤ matched.length ∧ matched.length ≤ 2) ∧
      readAfterList isNew none matched ≠ .removedFromState := by
  intro d m isNew entries extra matched hm hmatched
  have h1 := readResult_single_attempt_ok d m isNew entries extra hm
  rw [← hmatched] at h1
  refine ⟨h1, ?_, ?_, ?_, ?_⟩
  · intro h0
    rw [List.length_eq_zero.mp h0]
    exact readAfterList_none_nil isNew
  · intro h2
    rcases matched with _ | ⟨p, rest⟩
    · simp at h2
    · rw [readAfterList_none_cons, if_pos h2]
  · constructor
    · rintro ⟨st, hst⟩
      rcases matched with _ | ⟨p, rest⟩
      · rw [readAfterList_none_nil] at hst
        exact absurd hst (by simp)
      · by_cases hlen : (p :: rest).length > 2
        · rw [readAfterList_none_cons, if_pos hlen] at hst
          exact absurd hst (by simp)
        · constructor
          · simp only [List.length_cons]
            omega
          · omega
    · rintro ⟨hge, hle⟩
      rcases matched with _ | ⟨p, rest⟩
      · simp at hge
      · have hlen : ¬ (p :: rest).length > 2 := by omega
        refine ⟨buildState p (p :: rest), ?_⟩
        rw [readAfterList_none_cons, if_neg hlen]
  · rcases matched with _ | ⟨p, rest⟩
    · rw [readAfterList_none_nil]
      simp
    · rw [readAfterList_none_cons]
      split <;> simp

/-- Witness for C5: a catalog request whose single List call succeeds with no
entries at all yields the "no permissions found" consistency error. -/
theorem c5_witness :
    readResult catalogRequest false [⟨[], none⟩] ⟨[], none⟩ = some .noPermissionsFound := by
  have h := c5_read_match_count catalogRequest ⟨some (), none, none, none, none⟩ false [] ⟨[], none⟩
    [] rfl rfl
  rw [h.1, h.2.1 rfl]

/-- C6 (amended): the soft NotFound outcome (state pruned without error)
occurs exactly when the List phase failed with EntityNotFoundException AND the
resource is not newly created; in particular a single-attempt List failure
with EntityNotFoundException yields soft NotFound for `isNewResource = false`
but a surfaced error for `isNewResource = true`. -/
theorem c6_not_found_requires_not_new :
    (∀ (isNew : Bool) (err : Option AWSError) (acc : List PrincipalResourcePermissions),
      readAfterList isNew err acc = .removedFromState ↔
        ∃ e, err = some e ∧ e.code = "EntityNotFoundException" ∧ isNew = false) ∧
    (∀ (d : ResourceData) (m : Resource) (isNew : Bool)
      (entries : List (Option PrincipalResourcePermissions)) (extra : ListAttempt) (msg : String),
      expandLakeFormationResource d false = some m →
      readResult d isNew [⟨entries, some ⟨"EntityNotFoundException", msg⟩⟩] extra =
        some (if isNew then .listError ⟨"EntityNotFoundException", msg⟩ else .removedFromState)) := by
  constructor
  · intro isNew err acc
    cases err with
    | none =>
      rcases acc with _ | ⟨p, rest⟩
      · rw [readAfterList_none_nil]
        simp
      · rw [readAfterList_none_cons]
        constructor
        · intro hfalse
          revert hfalse
          split <;> simp
        · rintro ⟨e, he, _⟩
          exact absurd he (by simp)
    | some e =>
      simp only [readAfterList]
      by_cases hc : (!isNew && e.code == "EntityNotFoundException") = true
      · rw [if_pos hc]
        simp only [Bool.and_eq_true, Bool.not_eq_true', beq_iff_eq] at hc
        constructor
        · intro _
          exact ⟨e, rfl, hc.2, hc.1⟩
        · intro _
          rfl
      · rw [if_neg hc]
        constructor
        · intro hfalse
          exact absurd hfalse (by simp)
        · rintro ⟨e', he', hcode, hnew⟩
          obtain rfl : e' = e := by
            injection he' with h2
            exact h2.symm
          exact (hc (by simp [hnew, hcode])).elim
  · intro d m isNew entries extra msg hm
    have hterm := readResult_single_attempt_terminal d m isNew entries
      ⟨"EntityNotFoundException", msg⟩ extra hm rfl
    rw [hterm]
    cases isNew <;> rfl

/-- Witness for C6: the EntityNotFound soft path at a concrete request with
`isNewResource = false` removes the resource from state. -/
theorem c6_witness :
    readResult catalogRequest false [⟨[], some ⟨"EntityNotFoundException", "gone"⟩⟩] ⟨[], none⟩ =
      some .removedFromState := by
  have h := c6_not_found_requires_not_new.2 catalogRequest ⟨some (), none, none, none, none⟩
    false [] ⟨[], none⟩ "gone" rfl
  simpa using h

/-- Counterexample for C6 as stated: when Read runs on a newly created
resource (`d.IsNewResource()` true, as in the Read issued from Create), an
EntityNotFoundException from List is surfaced as an error, not signalled as
the soft NotFound outcome. -/
theorem c6_counterexample :
    readResult catalogRequest true [⟨[], some ⟨"EntityNotFoundException", "gone"⟩⟩] ⟨[], none⟩ =
      some (.listError ⟨"EntityNotFoundException", "gone"⟩) ∧
    readResult catalogRequest true [⟨[], some ⟨"EntityNotFoundException", "gone"⟩⟩] ⟨[], none⟩ ≠
      some .removedFromState := by
  decide

theorem flattenPermissions_eq_flatMap (l : List PrincipalResourcePermissions) :
    flattenLakeFormationPermissions l = l.flatMap (fun p => p.Permissions) := by
  induction l with
  | nil => rfl
  | cons p t ih => simp [flattenLakeFormationPermissions, ih]

theorem flattenGrantPermissions_eq_flatMap (l : List PrincipalResourcePermissions) :
    flattenLakeFormationGrantPermissions l = l.flatMap (fun p => p.PermissionsWithGrantOption) := by
  induction l with
  | nil => rfl
  | cons p t ih => simp [flattenLakeFormationGrantPermissions, ih]

/-- C7: when a single successful List call matches one or two entries, Read
succeeds with state built from the first matched entry, and the reported
permission lists are the concatenation of all matched entries' lists in match
order, with no deduplication across entries. -/
theorem c7_merged_permissions :
    ∀ (d : ResourceData) (m : Resource) (isNew : Bool)
      (entries : List (Option PrincipalResourcePermissions)) (extra : ListAttempt)
      (first : PrincipalResourcePermissions) (rest : List PrincipalResourcePermissions),
      expandLakeFormationResource d false = some m →
      (processEntries m (expandLakeFormationResourceForSelectPermissions d) [] entries).1 =
        first :: rest →
      rest.length ≤ 1 →
      readResult d isNew [⟨entries, none⟩] extra =
        some (.ok (buildState first (first :: rest))) ∧
      (buildState first (first :: rest)).permissions =
        (first :: rest).flatMap (fun p => p.Permissions) ∧
      (buildState first (first :: rest)).permissionsWithGrantOption =
        (first :: rest).flatMap (fun p => p.PermissionsWithGrantOption) := by
  intro d m isNew entries extra first rest hm hmatched hlen
  have h1 := readResult_single_attempt_ok d m isNew entries extra hm
  rw [hmatched] at h1
  have hnot : ¬ (first :: rest).length > 2 := by
    simp only [List.length_cons]
    omega
  rw [readAfterList_none_cons, if_neg hnot] at h1
  exact ⟨h1, flattenPermissions_eq_flatMap _, flattenGrantPermissions_eq_flatMap _⟩

/-- Remote base Table entry for db1.t1 with a SELECT permission. -/
def baseTableEntry : PrincipalResourcePermissions :=
  ⟨some "role/X", ⟨none, none, none, some ⟨none, some "db1", some "t1", none⟩, none⟩,
    ["SELECT"], []⟩

/-- Remote synthesized TableWithColumns column-wildcard entry for db1.t1 with
a SELECT permission. -/
def columnWildcardEntry : PrincipalResourcePermissions :=
  ⟨some "role/X", ⟨none, none, none, none, some ⟨none, none, some ⟨none⟩, some "db1", some "t1"⟩⟩,
    ["SELECT"], []⟩

/-- Witness for C7 (end-to-end scenario B): a table request matches both the
base Table entry and the synthesized TableWithColumns wildcard entry; Read
does not error and reports the merged (unduplicated-across-entries, hence
doubled) SELECT permissions. -/
theorem c7_witness :
    readResult tableRequest false [⟨[some baseTableEntry, some columnWildcardEntry], none⟩]
      ⟨[], none⟩ = some (.ok (buildState baseTableEntry [baseTableEntry, columnWildcardEntry])) ∧
    (buildState baseTableEntry [baseTableEntry, columnWildcardEntry]).permissions =
      ["SELECT", "SELECT"] := by
  have h := c7_merged_permissions tableRequest
    ⟨none, none, none, some ⟨none, some "db1", some "t1", none⟩, none⟩ false
    [some baseTableEntry, some columnWildcardEntry] ⟨[], none⟩
    baseTableEntry [columnWildcardEntry] rfl (by decide) (by decide)
  refine ⟨h.1, ?_⟩
  rw [h.2.1]
  decide

/-- C8: when the retry budget is exhausted with a retryable error pending
(`runRetry` / `readListLoop` report a timeout), each of Create, Delete and
Read makes exactly one more attempt outside the loop and returns that
attempt's outcome with no retry classification applied to it; in particular
an error from that final attempt is surfaced even when it is retryable. -/
theorem c8_final_unretried_attempt :
    (∀ (trace : List (Except AWSError Bool)) (extra : Except AWSError Bool) (e : AWSError),
      runRetry createRetryable trace = .timedOut e →
      createResult trace extra = createFinal extra) ∧
    (∀ (trace : List (Except AWSError Unit)) (extra : Except AWSError Unit) (e : AWSError),
      runRetry deleteRetryable trace = .timedOut e →
      deleteResult trace extra = deleteFinal extra) ∧
    (∀ (d : ResourceData) (m : Resource) (isNew : Bool) (trace : List ListAttempt)
      (extra : ListAttempt) (acc : List PrincipalResourcePermissions) (mm : Resource)
      (ss : Option Resource) (e : AWSError),
      expandLakeFormationResource d false = some m →
      readListLoop m (expandLakeFormationResourceForSelectPermissions d) [] trace =
        (acc, mm, ss, .timedOut e) →
      readResult d isNew trace extra = some (readFinalAfterTimeout isNew mm ss acc extra)) ∧
    (∀ e : AWSError, createFinal (.error e) = .failed e ∧ deleteFinal (.error e) = some e) := by
  refine ⟨?_, ?_, ?_, ?_⟩
  · intro trace extra e h
    unfold createResult
    rw [h]
    cases extra with
    | ok b => rfl
    | error e2 => rfl
  · intro trace extra e h
    unfold deleteResult
    rw [h]
    cases extra with
    | ok u => rfl
    | error e2 => rfl
  · intro d m isNew trace extra acc mm ss e hm hloop
    unfold readResult
    rw [hm]
    simp only [hloop]
    rfl
  · intro e
    exact ⟨rfl, rfl⟩

/-- Witness for C8: a budget exhausted on a retryable concurrent-modification
error; the single extra Create attempt succeeds and Create proceeds, the
single extra Delete attempt fails with a retryable error that is surfaced
anyway, and the single extra Read List attempt (after a retryable
invalid-principal timeout) succeeds with zero entries, yielding the
consistency error. -/
theorem c8_witness :
    createResult [Except.error ⟨"ConcurrentModificationException", ""⟩] (Except.ok true) =
      .proceedToRead ∧
    deleteResult [Except.error ⟨"ConcurrentModificationException", ""⟩]
      (Except.error ⟨"ConcurrentModificationException", ""⟩) =
      some ⟨"ConcurrentModificationException", ""⟩ ∧
    readResult catalogRequest false [⟨[], some ⟨"InvalidInputException", "Invalid principal"⟩⟩]
      ⟨[], none⟩ = some .noPermissionsFound := by
  refine ⟨?_, ?_, ?_⟩
  · have h := c8_final_unretried_attempt.1 [Except.error ⟨"ConcurrentModificationException", ""⟩]
      (Except.ok true) ⟨"ConcurrentModificationException", ""⟩ (by decide)
    rw [h]
    rfl
  · have h := c8_final_unretried_attempt.2.1
      [Except.error ⟨"ConcurrentModificationException", ""⟩]
      (Except.error ⟨"ConcurrentModificationException", ""⟩)
      ⟨"ConcurrentModificationException", ""⟩ (by decide)
    rw [h]
    rfl
  · have h := c8_final_unretried_attempt.2.2.1 catalogRequest
      ⟨some (), none, none, none, none⟩ false
      [⟨[], some ⟨"InvalidInputException", "Invalid principal"⟩⟩] ⟨[], none⟩
      [] ⟨some (), none, none, none, none⟩ none
      ⟨"InvalidInputException", "Invalid principal"⟩ rfl (by decide)
    rw [h]
    rfl

/-- Number of populated variant fields of a wire locator. -/
def populatedCount (r : Resource) : Nat :=
  (if r.Catalog.isSome then 1 else 0) + (if r.DataLocation.isSome then 1 else 0) +
  (if r.Database.isSome then 1 else 0) + (if r.Table.isSome then 1 else 0) +
  (if r.TableWithColumns.isSome then 1 else 0)

theorem classify_one_of_five (d : ResourceData) :
    expandLakeFormationResourceType d = DataLakeResourceTypeCatalog ∨
    expandLakeFormationResourceType d = DataLakeResourceTypeDataLocation ∨
    expandLakeFormationResourceType d = DataLakeResourceTypeDatabase ∨
    expandLakeFormationResourceType d = DataLakeResourceTypeTable ∨
    expandLakeFormationResourceType d = DataLakeResourceTypeTableWithColumns := by
  unfold expandLakeFormationResourceType
  split_ifs
  · exact Or.inl rfl
  · exact Or.inr (Or.inl rfl)
  · exact Or.inr (Or.inr (Or.inl rfl))
  · exact Or.inr (Or.inr (Or.inr (Or.inl rfl)))
  · exact Or.inr (Or.inr (Or.inr (Or.inr rfl)))

/-- C9 (amended): classification follows the fixed precedence order with the
table-with-columns type as fallback and yields one of the five tags; every
normalized wire locator populates exactly one variant field; and with
`squashTableWithColumns = false` the populated field is exactly the
classified variant's (with squashing, a table-with-columns classification
populates the Table field instead). -/
theorem c9_classify_and_normalize :
    ∀ (d : ResourceData) (sq : Bool) (r : Resource),
      expandLakeFormationResource d sq = some r →
      (expandLakeFormationResourceType d = DataLakeResourceTypeCatalog ∨
       expandLakeFormationResourceType d = DataLakeResourceTypeDataLocation ∨
       expandLakeFormationResourceType d = DataLakeResourceTypeDatabase ∨
       expandLakeFormationResourceType d = DataLakeResourceTypeTable ∨
       expandLakeFormationResourceType d = DataLakeResourceTypeTableWithColumns) ∧
      ((d.catalog_resource = true →
         expandLakeFormationResourceType d = DataLakeResourceTypeCatalog) ∧
       (d.catalog_resource = false → d.data_location.isSome →
         expandLakeFormationResourceType d = DataLakeResourceTypeDataLocation) ∧
       (d.catalog_resource = false → d.data_location = none → d.database.isSome →
         expandLakeFormationResourceType d = DataLakeResourceTypeDatabase) ∧
       (d.catalog_resource = false → d.data_location = none → d.database = none →
         d.table.isSome →
         expandLakeFormationResourceType d = DataLakeResourceTypeTable) ∧
       (d.catalog_resource = false → d.data_location = none → d.database = none →
         d.table = none →
         expandLakeFormationResourceType d = DataLakeResourceTypeTableWithColumns)) ∧
      populatedCount r = 1 ∧
      (sq = false →
        (expandLakeFormationResourceType d = DataLakeResourceTypeCatalog ↔
          r.Catalog.isSome) ∧
        (expandLakeFormationResourceType d = DataLakeResourceTypeDataLocation ↔
          r.DataLocation.isSome) ∧
        (expandLakeFormationResourceType d = DataLakeResourceTypeDatabase ↔
          r.Database.isSome) ∧
        (expandLakeFormationResourceType d = DataLakeResourceTypeTable ↔
          r.Table.isSome) ∧
        (expandLakeFormationResourceType d = DataLakeResourceTypeTableWithColumns ↔
          r.TableWithColumns.isSome)) := by
  intro d sq r h
  refine ⟨classify_one_of_five d, ⟨?_, ?_, ?_, ?_, ?_⟩, ?_⟩
  · intro h1
    unfold expandLakeFormationResourceType
    rw [if_pos h1]
  · intro h1 h2
    unfold expandLakeFormationResourceType
    rw [if_neg (by simp [h1]), if_pos h2]
  · intro h1 h2 h3
    unfold expandLakeFormationResourceType
    rw [if_neg (by simp [h1]), if_neg (by simp [h2]), if_pos h3]
  · intro h1 h2 h3 h4
    unfold expandLakeFormationResourceType
    rw [if_neg (by simp [h1]), if_neg (by simp [h2]), if_neg (by simp [h3]), if_pos h4]
  · intro h1 h2 h3 h4
    unfold expandLakeFormationResourceType
    rw [if_neg (by simp [h1]), if_neg (by simp [h2]), if_neg (by simp [h3]),
      if_neg (by simp [h4])]
  · unfold expandLakeFormationResource at h
    by_cases hc : expandLakeFormationResourceType d = DataLakeResourceTypeCatalog
    · rw [if_pos hc] at h
      obtain rfl : { emptyResource with Catalog := some () } = r := by
        injection h
      refine ⟨rfl, ?_⟩
      intro _
      refine ⟨iff_of_true hc (by simp [emptyResource]), ?_, ?_, ?_, ?_⟩ <;>
        exact iff_of_false (fun hx => by rw [hc] at hx; exact absurd hx (by decide))
          (by simp [emptyResource])
    · rw [if_neg hc] at h
      by_cases hdl : expandLakeFormationResourceType d = DataLakeResourceTypeDataLocation
      · rw [if_pos hdl] at h
        cases hcfg : d.data_location with
        | none => rw [hcfg] at h; exact absurd h (by simp)
        | some c =>
          rw [hcfg] at h
          obtain rfl : { emptyResource with
              DataLocation := some (expandLakeFormationDataLocationResource c) } = r := by
            injection h
          refine ⟨rfl, ?_⟩
          intro _
          refine ⟨?_, iff_of_true hdl (by simp [emptyResource]), ?_, ?_, ?_⟩ <;>
            exact iff_of_false (fun hx => by rw [hdl] at hx; exact absurd hx (by decide))
              (by simp [emptyResource])
      · rw [if_neg hdl] at h
        by_cases hdb : expandLakeFormationResourceType d = DataLakeResourceTypeDatabase
        · rw [if_pos hdb] at h
          cases hcfg : d.database with
          | none => rw [hcfg] at h; exact absurd h (by simp)
          | some c =>
            rw [hcfg] at h
            obtain rfl : { emptyResource with
                Database := some (expandLakeFormationDatabaseResource c) } = r := by
              injection h
            refine ⟨rfl, ?_⟩
            intro _
            refine ⟨?_, ?_, iff_of_true hdb (by simp [emptyResource]), ?_, ?_⟩ <;>
              exact iff_of_false (fun hx => by rw [hdb] at hx; exact absurd hx (by decide))
                (by simp [emptyResource])
        · rw [if_neg hdb] at h
          by_cases ht : expandLakeFormationResourceType d = DataLakeResourceTypeTable
          · rw [if_pos ht] at h
            cases hcfg : d.table with
            | none => rw [hcfg] at h; exact absurd h (by simp)
            | some c =>
              rw [hcfg] at h
              obtain rfl : { emptyResource with
                  Table := some (expandLakeFormationTableResource c) } = r := by
                injection h
              refine ⟨rfl, ?_⟩
              intro _
              refine ⟨?_, ?_, ?_, iff_of_true ht (by simp [emptyResource]), ?_⟩ <;>
                exact iff_of_false (fun hx => by rw [ht] at hx; exact absurd hx (by decide))
                  (by simp [emptyResource])
          · rw [if_neg ht] at h
            have htwc : expandLakeFormationResourceType d =
                DataLakeResourceTypeTableWithColumns := by
              rcases classify_one_of_five d with hx | hx | hx | hx | hx
              · exact absurd hx hc
              · exact absurd hx hdl
              · exact absurd hx hdb
              · exact absurd hx ht
              · exact hx
            cases hcfg : d.table_with_columns with
            | none => rw [hcfg] at h; exact absurd h (by simp)
            | some c =>
              rw [hcfg] at h
              cases sq with
              | true =>
                replace h : some { emptyResource with
                    Table := some (expandLakeFormationTableResourceFromTWC c) } = some r := h
                obtain rfl : { emptyResource with
                    Table := some (expandLakeFormationTableResourceFromTWC c) } = r := by
                  injection h
                refine ⟨rfl, ?_⟩
                intro hsq
                exact absurd hsq (by simp)
              | false =>
                replace h : some { emptyResource with
                    TableWithColumns :=
                      some (expandLakeFormationTableWithColumnsResource c) } = some r := h
                obtain rfl : { emptyResource with
                    TableWithColumns :=
                      some (expandLakeFormationTableWithColumnsResource c) } = r := by
                  injection h
                refine ⟨rfl, ?_⟩
                intro _
                refine ⟨?_, ?_, ?_, ?_, iff_of_true htwc (by simp [emptyResource])⟩ <;>
                  exact iff_of_false (fun hx => by rw [htwc] at hx; exact absurd hx (by decide))
                    (by simp [emptyResource])

/-- A request carrying only a `database` block `{name: db1}`. -/
def databaseRequest : ResourceData :=
  { catalog_id := ""
    catalog_resource := false
    data_location := none
    database := some ⟨"", "db1"⟩
    permissions := ["SELECT", "ALTER"]
    permissions_with_grant_option := []
    principal := "role/X"
    table := none
    table_with_columns := none }

/-- Witness for C9 at a concrete database request with squashing off: the
normalized locator has exactly one populated field and the classification is
the database tag. -/
theorem c9_witness :
    populatedCount ⟨none, none, some ⟨none, some "db1"⟩, none, none⟩ = 1 ∧
    expandLakeFormationResourceType databaseRequest = DataLakeResourceTypeDatabase := by
  have h := c9_classify_and_normalize databaseRequest false
    ⟨none, none, some ⟨none, some "db1"⟩, none, none⟩ rfl
  exact ⟨h.2.2.1, (h.2.2.2 rfl).2.2.1.mpr (by simp)⟩

/-- A request carrying only a `table_with_columns` block for db1.t1. -/
def tableWithColumnsRequest : ResourceData :=
  { catalog_id := ""
    catalog_resource := false
    data_location := none
    database := none
    permissions := ["SELECT"]
    permissions_with_grant_option := []
    principal := "role/X"
    table := none
    table_with_columns := some ⟨"", [], "db1", [], "t1"⟩ }

/-- Counterexample for C9 as stated: for a request classified as
table-with-columns, normalization with squashing (used by Read to build the
List filter) populates the Table field and leaves the TableWithColumns field
nil — not the classified variant's field. -/
theorem c9_counterexample :
    expandLakeFormationResourceType tableWithColumnsRequest =
      DataLakeResourceTypeTableWithColumns ∧
    expandLakeFormationResource tableWithColumnsRequest true =
      some ⟨none, none, none, some ⟨none, some "db1", some "t1", none⟩, none⟩ ∧
    (⟨none, none, none, some ⟨none, some "db1", some "t1", none⟩, none⟩ :
      Resource).TableWithColumns = none := by
  decide

/-- Remote base Table entry with principal principal-one and SELECT. -/
def orderEntryOne : PrincipalResourcePermissions :=
  ⟨some "principal-one", ⟨none, none, none, some ⟨none, some "db1", some "t1", none⟩, none⟩,
    ["SELECT"], []⟩

/-- Remote TableWithColumns wildcard entry with principal principal-two and ALTER. -/
def orderEntryTwo : PrincipalResourcePermissions :=
  ⟨some "principal-two",
    ⟨none, none, none, none, some ⟨none, none, some ⟨none⟩, some "db1", some "t1"⟩⟩,
    ["ALTER"], []⟩

/-- C10: two List responses with the same two matched entries in opposite
orders make Read surface different state: the reported principal (and the
resource fields) come from the first matched entry only, and the permission
lists are concatenated in match order. -/
theorem c10_order_dependent_state :
    readResult tableRequest false [⟨[some orderEntryOne, some orderEntryTwo], none⟩] ⟨[], none⟩ =
      some (.ok (buildState orderEntryOne [orderEntryOne, orderEntryTwo])) ∧
    readResult tableRequest false [⟨[some orderEntryTwo, some orderEntryOne], none⟩] ⟨[], none⟩ =
      some (.ok (buildState orderEntryTwo [orderEntryTwo, orderEntryOne])) ∧
    (buildState orderEntryOne [orderEntryOne, orderEntryTwo]).principal =
      some "principal-one" ∧
    (buildState orderEntryTwo [orderEntryTwo, orderEntryOne]).principal =
      some "principal-two" ∧
    (buildState orderEntryOne [orderEntryOne, orderEntryTwo]).permissions =
      ["SELECT", "ALTER"] ∧
    (buildState orderEntryTwo [orderEntryTwo, orderEntryOne]).permissions =
      ["ALTER", "SELECT"] ∧
    buildState orderEntryOne [orderEntryOne, orderEntryTwo] ≠
      buildState orderEntryTwo [orderEntryTwo, orderEntryOne] := by
  decide

end LakeFormationPermissions
